import Mathlib

/-!
Verification of `src/test-project/scripts/env_setup.py`.

The script reads the environment variable `UBER_GLOBAL_COMMAND_ARGS`
(missing treated as `""`), and when non-empty splits it on whitespace and
feeds the tokens to an `argparse.ArgumentParser` holding a single option
`--name` (plus the implicit `-h`/`--help`), via `parse_known_args`.
If a non-empty name was captured the greeting becomes `Hello, <name>!`,
otherwise it stays the default literal.  It then prints
`DEMO_GREETING="<greeting>"` to stdout and an informational line to
stderr, exiting 0.  When argparse itself reports a parse error (for
example `--name` with no following value) it prints a usage message to
stderr and exits with status 2 before any of that happens; when help is
requested it prints the help text to stdout and exits 0.

We embed the script as a pure function from the (optional) value of the
environment variable to the observable output: the list of stdout lines,
the list of stderr lines, and the exit code.  The argparse behaviour is
embedded for the concrete parser the script builds: long-option
abbreviation matching (`--n`, `--na`, `--nam` all match `--name`), the
`--opt=value` form, negative-number tokens treated as positionals,
unknown tokens collected as extras, the `--` separator, and the
error exits of argparse.
-/

namespace EnvSetup

/-- The default greeting literal from line 8 of the script. -/
def defaultGreeting : String := "Hello from the env_setup.py script!"

/-- Program name argparse derives from `sys.argv[0]` when the script runs. -/
def progName : String := "env_setup.py"

/-- The usage line argparse prints for this parser. -/
def usageLine : String := "usage: env_setup.py [-h] [--name NAME]"

/-- The help text argparse prints on `-h`/`--help` (then exits 0). -/
def helpLines : List String :=
  [usageLine, "", "options:",
   "  -h, --help   show this help message and exit",
   "  --name NAME  A name to greet"]

/-- The informational stderr line from line 29 of the script. -/
def infoLine : String := "env_setup.py: Setting DEMO_GREETING"

/-- The stdout line from line 26: `DEMO_GREETING="<greeting>"`. -/
def demoLine (g : String) : String := "DEMO_GREETING=\"" ++ g ++ "\""

/-- Accumulator pass for `pySplit`: `acc` holds the current token's
characters in reverse. -/
def splitWsAux : List Char → List Char → List String
  | [], acc => if acc.isEmpty then [] else [String.mk acc.reverse]
  | c :: cs, acc =>
    if c.isWhitespace then
      (if acc.isEmpty then [] else [String.mk acc.reverse]) ++ splitWsAux cs []
    else splitWsAux cs (c :: acc)

/-- Python `str.split()` with no separator: split on whitespace runs,
dropping empty pieces. -/
def pySplit (s : String) : List String :=
  splitWsAux s.data []

/-- `a` starts with `p` (Python `str.startswith`), on the character
lists. -/
def strStarts (a p : String) : Bool :=
  p.data.isPrefixOf a.data

/-- After a leading `-`: does the rest match `\d*\.\d+`? (second half of
argparse's negative-number pattern). -/
def digitsDotDigits (cs : List Char) : Bool :=
  let p := cs.span Char.isDigit
  match p.2 with
  | '.' :: tail => !tail.isEmpty && tail.all Char.isDigit
  | _ => false

/-- argparse's `_negative_number_matcher`: `^-\d+$|^-\d*\.\d+$`. -/
def isNegNumber (t : String) : Bool :=
  match t.data with
  | '-' :: rest => (!rest.isEmpty && rest.all Char.isDigit) || digitsDotDigits rest
  | _ => false

/-- A token argparse classifies as an optional: starts with `-`, is not a
bare `-`, and is not a negative number (this parser has no options that
look like negative numbers). -/
def looksLikeOption (t : String) : Bool :=
  strStarts t "-" && t ≠ "-" && !isNegNumber t

/-- Split a token at its first `=`, as argparse does for explicit
arguments: `--name=Ada` gives `("--name", some "Ada")`. -/
def breakAtEq : List Char → List Char × Option (List Char)
  | [] => ([], none)
  | c :: cs =>
    if c = '=' then ([], some cs)
    else
      let p := breakAtEq cs
      (c :: p.1, p.2)

/-- Token split into key and optional explicit `=`-argument. -/
def splitEq (t : String) : String × Option String :=
  let p := breakAtEq t.data
  (String.mk p.1, p.2.map String.mk)

/-- How an option-looking token matches against this parser's option
strings `-h`, `--help`, `--name` (exact match first, then unambiguous
long-option abbreviation, as in argparse with the default
`allow_abbrev=True`). -/
inductive OptMatch where
  | helpOpt (arg : Option String)
  | nameOpt (arg : Option String)
  | ambiguousOpt
  | unknownOpt
deriving DecidableEq

/-- The long option strings of the parser built by the script. -/
def longOptions : List String := ["--help", "--name"]

/-- Match one option-looking token against the parser's options. -/
def matchOption (t : String) : OptMatch :=
  if strStarts t "--" then
    let p := splitEq t
    if p.1 = "--help" then .helpOpt p.2
    else if p.1 = "--name" then .nameOpt p.2
    else
      match longOptions.filter (fun o => strStarts o p.1) with
      | [o] => if o = "--help" then .helpOpt p.2 else .nameOpt p.2
      | [] => .unknownOpt
      | _ => .ambiguousOpt
  else
    let p := splitEq t
    if p.1 = "-h" then .helpOpt p.2
    else if strStarts t "-h" then .helpOpt (some (String.mk (t.data.drop 2)))
    else .unknownOpt

/-- Result of `parser.parse_known_args`: either the captured `--name`
value with the unrecognized extras, or a help exit (status 0), or an
argparse error exit (status 2) with its message. -/
inductive ParseResult where
  | ok (name : Option String) (extras : List String)
  | helpExit
  | errorExit (msg : String)
deriving DecidableEq

/-- The argparse message for `--name` given no value token. -/
def missingValueMsg : String := "argument --name: expected one argument"

/-- One pass of argparse over the token list for this parser: optionals
are matched (with abbreviation), `--name` consumes the following
non-option token as its value (erroring if absent), unknown tokens and
stray positionals are collected as extras, everything after a `--`
separator is positional. -/
def consumeArgs : List String → Option String → List String → ParseResult
  | [], name, extras => .ok name extras
  | t :: rest, name, extras =>
    if t = "--" then .ok name (extras ++ t :: rest)
    else if looksLikeOption t then
      match matchOption t with
      | .helpOpt none => .helpExit
      | .helpOpt (some a) => .errorExit ("ignored explicit argument " ++ a)
      | .nameOpt (some v) => consumeArgs rest (some v) extras
      | .nameOpt none =>
        match rest with
        | [] => .errorExit missingValueMsg
        | v :: rest2 =>
          if looksLikeOption v then .errorExit missingValueMsg
          else consumeArgs rest2 (some v) extras
      | .ambiguousOpt =>
        .errorExit ("ambiguous option: " ++ t ++ " could match --help, --name")
      | .unknownOpt => consumeArgs rest name (extras ++ [t])
    else consumeArgs rest name (extras ++ [t])

/-- `parser.parse_known_args(tokens)` for the script's parser. -/
def parse_known_args (tokens : List String) : ParseResult :=
  consumeArgs tokens none []

/-- Observable behaviour of one run: stdout lines, stderr lines, exit
code. -/
structure ScriptOutput where
  stdout : List String
  stderr : List String
  exitCode : Nat
deriving DecidableEq

/-- Lines 22–23 of the script: `if args.name:` is Python truthiness, so
the greeting is overwritten exactly when a non-empty name was captured. -/
def greetingFor (name : Option String) : String :=
  match name with
  | some v => if v = "" then defaultGreeting else "Hello, " ++ v ++ "!"
  | none => defaultGreeting

/-- The parse outcome a run observes: an absent or empty variable skips
parsing entirely (line 20's guard), behaving as a successful parse that
captured nothing. -/
def parseOutcome (env : Option String) : ParseResult :=
  if env.getD "" = "" then .ok none [] else parse_known_args (pySplit (env.getD ""))

/-- The whole script, lines 6–29: `env` is the value of
`UBER_GLOBAL_COMMAND_ARGS` (`none` when the variable is absent). -/
def main (env : Option String) : ScriptOutput :=
  let s := env.getD ""
  if s = "" then
    { stdout := [demoLine defaultGreeting], stderr := [infoLine], exitCode := 0 }
  else
    match parse_known_args (pySplit s) with
    | .ok name _ =>
      { stdout := [demoLine (greetingFor name)], stderr := [infoLine], exitCode := 0 }
    | .helpExit =>
      { stdout := helpLines, stderr := [], exitCode := 0 }
    | .errorExit msg =>
      { stdout := [], stderr := [usageLine, progName ++ ": error: " ++ msg], exitCode := 2 }

/-- On a successful parse the run prints the greeting line, the
informational stderr line, and exits 0. -/
theorem main_of_ok (env : Option String) (n : Option String) (ex : List String)
    (h : parseOutcome env = .ok n ex) :
    main env =
      { stdout := [demoLine (greetingFor n)], stderr := [infoLine], exitCode := 0 } := by
  unfold parseOutcome at h
  unfold main
  by_cases hs : env.getD "" = ""
  · rw [if_pos hs] at h
    cases h
    simp [hs, greetingFor]
  · rw [if_neg hs] at h
    simp only [hs, if_neg, ite_false]
    rw [h]

/-- On an argparse error exit the run prints nothing to stdout, prints
the usage and error message to stderr, and exits 2. -/
theorem main_of_err (env : Option String) (m : String)
    (h : parseOutcome env = .errorExit m) :
    main env =
      { stdout := [], stderr := [usageLine, progName ++ ": error: " ++ m],
        exitCode := 2 } := by
  unfold parseOutcome at h
  unfold main
  by_cases hs : env.getD "" = ""
  · rw [if_pos hs] at h
    cases h
  · rw [if_neg hs] at h
    simp only [hs, ite_false]
    rw [h]

/-- On a help exit the run prints the help text to stdout and exits 0. -/
theorem main_of_help (env : Option String)
    (h : parseOutcome env = .helpExit) :
    main env = { stdout := helpLines, stderr := [], exitCode := 0 } := by
  unfold parseOutcome at h
  unfold main
  by_cases hs : env.getD "" = ""
  · rw [if_pos hs] at h
    cases h
  · rw [if_neg hs] at h
    simp only [hs, ite_false]
    rw [h]

/-- Every run ends in exactly one of the three outcomes. -/
theorem parseOutcome_cases (env : Option String) :
    (∃ n ex, parseOutcome env = .ok n ex) ∨ parseOutcome env = .helpExit ∨
      ∃ m, parseOutcome env = .errorExit m := by
  cases h : parseOutcome env with
  | ok n ex => exact Or.inl ⟨n, ex, rfl⟩
  | helpExit => exact Or.inr (Or.inl rfl)
  | errorExit m => exact Or.inr (Or.inr ⟨m, rfl⟩)

/-- The greeting is never the empty string. -/
theorem greetingFor_ne_empty (n : Option String) : greetingFor n ≠ "" := by
  rcases n with _ | v
  · simp [greetingFor, defaultGreeting]
  · unfold greetingFor
    by_cases hv : v = ""
    · simp [hv, defaultGreeting]
    · simp only [hv, if_neg, ite_false]
      intro h
      have h2 := congrArg String.data h
      simp [String.data_append] at h2

/-- C1 (counterexample): with `UBER_GLOBAL_COMMAND_ARGS="--name"` the exit
status is not 0 — argparse reports `expected one argument` and exits 2,
refuting the claim that every input exits 0. -/
theorem claim_C1_counterexample : (main (some "--name")).exitCode ≠ 0 := by decide

/-- C1 (amended): every run exits either with status 0, or — when argparse
itself rejects the token string, e.g. a `--name` flag with no following
value — with status 2 and an empty stdout. -/
theorem claim_C1 (env : Option String) :
    (main env).exitCode = 0 ∨ ((main env).exitCode = 2 ∧ (main env).stdout = []) := by
  rcases parseOutcome_cases env with ⟨n, ex, h⟩ | h | ⟨m, h⟩
  · rw [main_of_ok env n ex h]
    exact Or.inl rfl
  · rw [main_of_help env h]
    exact Or.inl rfl
  · rw [main_of_err env m h]
    exact Or.inr ⟨rfl, rfl⟩

/-- C2 (counterexample): with `UBER_GLOBAL_COMMAND_ARGS="--name"` the
stdout is not the default greeting line — nothing is printed to stdout,
refuting the claimed fallback. -/
theorem claim_C2_counterexample :
    (main (some "--name")).stdout ≠
      ["DEMO_GREETING=\"Hello from the env_setup.py script!\""] := by decide

/-- C2 (amended): with `UBER_GLOBAL_COMMAND_ARGS="--name"` (flag present,
value missing) argparse errors out: the run prints nothing to stdout,
prints the usage line and `error: argument --name: expected one argument`
to stderr, and exits with status 2. -/
theorem claim_C2 :
    main (some "--name") =
      { stdout := [],
        stderr := [usageLine,
          "env_setup.py: error: argument --name: expected one argument"],
        exitCode := 2 } := by decide

/-- C3 (counterexample): with `UBER_GLOBAL_COMMAND_ARGS="--name"` the
number of stdout lines is 0, not 1, refuting the claim that every input
yields exactly one stdout line. -/
theorem claim_C3_counterexample : (main (some "--name")).stdout.length ≠ 1 := by decide

/-- C3 (amended): on every input on which argparse parsing succeeds (so
neither a parse-error exit nor a help exit), stdout is exactly one line of
the form `DEMO_GREETING="<greeting>"`. -/
theorem claim_C3 (env : Option String) (n : Option String) (ex : List String)
    (h : parseOutcome env = ParseResult.ok n ex) :
    (main env).stdout = [demoLine (greetingFor n)] := by
  rw [main_of_ok env n ex h]

/-- C3 witness: `--name Bob` is a successful parse and the run prints the
single greeting line. -/
theorem claim_C3_witness :
    parseOutcome (some "--name Bob") = ParseResult.ok (some "Bob") [] ∧
    (main (some "--name Bob")).stdout = [demoLine (greetingFor (some "Bob"))] :=
  ⟨by decide, claim_C3 (some "--name Bob") (some "Bob") [] (by decide)⟩

/-- C4 (counterexample): with `UBER_GLOBAL_COMMAND_ARGS="--name"` the
informational stderr line `env_setup.py: Setting DEMO_GREETING` is not
emitted at all (count 0, not 1): argparse exits before line 29 runs. -/
theorem claim_C4_counterexample :
    (main (some "--name")).stderr.count infoLine ≠ 1 := by decide

/-- C4 (amended): on every input on which argparse parsing succeeds, the
stderr output is exactly the one informational line and the exit status is
0. -/
theorem claim_C4 (env : Option String) (n : Option String) (ex : List String)
    (h : parseOutcome env = ParseResult.ok n ex) :
    (main env).stderr = [infoLine] ∧ (main env).exitCode = 0 := by
  rw [main_of_ok env n ex h]
  exact ⟨rfl, rfl⟩

/-- C4 witness: `--name Carol` is a successful parse; the run emits the
informational stderr line once and exits 0. -/
theorem claim_C4_witness :
    parseOutcome (some "--name Carol") = ParseResult.ok (some "Carol") [] ∧
    ((main (some "--name Carol")).stderr = [infoLine] ∧
      (main (some "--name Carol")).exitCode = 0) :=
  ⟨by decide, claim_C4 (some "--name Carol") (some "Carol") [] (by decide)⟩

/-- C5: for `UBER_GLOBAL_COMMAND_ARGS="--foo bar --name Ada --baz"` the
unrecognized tokens are ignored (collected as extras by
`parse_known_args`) and the run prints exactly
`DEMO_GREETING="Hello, Ada!"`, the informational stderr line, and exits
0. -/
theorem claim_C5 :
    main (some "--foo bar --name Ada --baz") =
      { stdout := ["DEMO_GREETING=\"Hello, Ada!\""], stderr := [infoLine],
        exitCode := 0 } := by decide

/-- C6: when `UBER_GLOBAL_COMMAND_ARGS` is absent or empty, stdout is
exactly the default greeting line. -/
theorem claim_C6 :
    (main none).stdout =
        ["DEMO_GREETING=\"Hello from the env_setup.py script!\""] ∧
    (main (some "")).stdout =
        ["DEMO_GREETING=\"Hello from the env_setup.py script!\""] := by decide

/-- C7: for `UBER_GLOBAL_COMMAND_ARGS="--name World"` stdout is exactly
`DEMO_GREETING="Hello, World!"`; in general, whenever a non-empty `--name`
value `v` is captured, the printed greeting is `Hello, <v>!` with the
literal captured value. -/
theorem claim_C7 :
    (main (some "--name World")).stdout = ["DEMO_GREETING=\"Hello, World!\""] ∧
    ∀ (env : Option String) (v : String) (ex : List String),
      parseOutcome env = ParseResult.ok (some v) ex → v ≠ "" →
      (main env).stdout = [demoLine ("Hello, " ++ v ++ "!")] := by
  refine ⟨by decide, ?_⟩
  intro env v ex h hv
  rw [main_of_ok env (some v) ex h]
  simp [greetingFor, hv]

/-- C7 witness: instantiating the general part at `--name World`. -/
theorem claim_C7_witness :
    parseOutcome (some "--name World") = ParseResult.ok (some "World") [] ∧
    (main (some "--name World")).stdout = [demoLine ("Hello, " ++ "World" ++ "!")] :=
  ⟨by decide, claim_C7.2 (some "--name World") "World" [] (by decide) (by decide)⟩

/-- C8: whenever the run prints the `DEMO_GREETING` line (i.e. argparse
parsing succeeded), the greeting inside the quotes is non-empty: a
captured empty value keeps the default, and a captured non-empty value
yields `Hello, <v>!`. -/
theorem claim_C8 (env : Option String) (n : Option String) (ex : List String)
    (h : parseOutcome env = ParseResult.ok n ex) :
    (main env).stdout = [demoLine (greetingFor n)] ∧ greetingFor n ≠ "" := by
  rw [main_of_ok env n ex h]
  exact ⟨rfl, greetingFor_ne_empty n⟩

/-- C8 witness: `--name=` captures the empty string, the greeting falls
back to the (non-empty) default literal. -/
theorem claim_C8_witness :
    parseOutcome (some "--name=") = ParseResult.ok (some "") [] ∧
    ((main (some "--name=")).stdout = [demoLine (greetingFor (some ""))] ∧
      greetingFor (some "") ≠ "") :=
  ⟨by decide, claim_C8 (some "--name=") (some "") [] (by decide)⟩

/-- C9: the run is a pure function of the environment variable's value:
two runs with equal environments produce identical stdout, stderr and exit
status. -/
theorem claim_C9 (e1 e2 : Option String) (h : e1 = e2) :
    (main e1).stdout = (main e2).stdout ∧ (main e1).stderr = (main e2).stderr ∧
      (main e1).exitCode = (main e2).exitCode := by
  subst h
  exact ⟨rfl, rfl, rfl⟩

/-- C9 witness: two runs with the variable absent. -/
theorem claim_C9_witness :
    (none : Option String) = none ∧
    ((main none).stdout = (main none).stdout ∧
      (main none).stderr = (main none).stderr ∧
      (main none).exitCode = (main none).exitCode) :=
  ⟨rfl, claim_C9 none none rfl⟩

/-- C10: argparse abbreviation matching makes every unambiguous proper
prefix of `--name` (namely `--n`, `--na`, `--nam`) capture the following
value, and the `--name=<value>` (and abbreviated `--n=<value>`) forms also
capture it: each of these inputs prints `DEMO_GREETING="Hello, Ada!"`. -/
theorem claim_C10 :
    (main (some "--n Ada")).stdout = ["DEMO_GREETING=\"Hello, Ada!\""] ∧
    (main (some "--na Ada")).stdout = ["DEMO_GREETING=\"Hello, Ada!\""] ∧
    (main (some "--nam Ada")).stdout = ["DEMO_GREETING=\"Hello, Ada!\""] ∧
    (main (some "--name=Ada")).stdout = ["DEMO_GREETING=\"Hello, Ada!\""] ∧
    (main (some "--n=Ada")).stdout = ["DEMO_GREETING=\"Hello, Ada!\""] := by decide

end EnvSetup
